import Mathlib

/-!
Verification of the AI-datacenter energy-impact ETL pipeline
(scripts/02_data_cleaning.py, scripts/03_data_transformation.py,
scripts/load_data.py) against its design specification.

Modelling conventions:
* pandas DataFrames are lists of typed rows; nullable numeric columns are
  `Option ℚ` (pandas NaN = `none`, and `dropna` / `clip` / `pd.notna`
  behave on `none` exactly as pandas behaves on NaN).
* numeric columns are exact rationals `ℚ`; Python `round(x, 2)` is
  modelled by `round2` (round half to even, as Python's `round`).
* calendar dates are `(year, month, day)` triples; `pd.to_datetime` with
  format `%Y-%m` yields the first day of the month.
* the PostgreSQL database is a record of tables.  Writes issued through
  the SQLAlchemy engine (`DataFrame.to_sql`) commit immediately on the
  engine's own connection, so they act directly on the committed state;
  the separate psycopg2 connection held by `DatabaseLoader` only runs
  SELECT point queries, so `conn.rollback()` in the `except` branch of
  `run_full_load` changes nothing in the committed state.  The embedding
  of `run_full_load` reflects exactly that.
-/

/-- A calendar date, as produced by `pd.to_datetime`. -/
structure Date where
  year : Nat
  month : Nat
  day : Nat
deriving DecidableEq, Repr

/-- Lexicographic `≤` on dates (Boolean, as pandas/SQL compare timestamps). -/
def Date.leB (a b : Date) : Bool :=
  a.year < b.year ||
    (a.year = b.year && (a.month < b.month ||
      (a.month = b.month && a.day ≤ b.day)))

/-- `US_STATES` from `config.py`: the fixed enumeration of state codes. -/
def US_STATES : List String :=
  ["AL", "AK", "AZ", "AR", "CA", "CO", "CT", "DE", "FL", "GA",
   "HI", "ID", "IL", "IN", "IA", "KS", "KY", "LA", "ME", "MD",
   "MA", "MI", "MN", "MS", "MO", "MT", "NE", "NV", "NH", "NJ",
   "NM", "NY", "NC", "ND", "OH", "OK", "OR", "PA", "RI", "SC",
   "SD", "TN", "TX", "UT", "VT", "VA", "WA", "WV", "WI", "WY", "DC"]

/-- Round a rational to the nearest integer, ties to even (the rounding
Python 3's built-in `round` performs). -/
def roundHalfEvenInt (n : ℚ) : ℤ :=
  if n - ⌊n⌋ < 1/2 then ⌊n⌋
  else if 1/2 < n - ⌊n⌋ then ⌊n⌋ + 1
  else if ⌊n⌋ % 2 = 0 then ⌊n⌋ else ⌊n⌋ + 1

/-- Python `round(x, 2)`: round to 2 decimal places, ties to even, on
exact rationals. -/
def round2 (q : ℚ) : ℚ :=
  (roundHalfEvenInt (q * 100) : ℚ) / 100

/-! ## Raw and cleaned tables (scripts/02_data_cleaning.py) -/

/-- A raw EIA price record after the column renames of `clean_eia_prices`
(`period → date`, `stateid → state`, `price → price_cents_per_kwh`,
`sales → sales_mwh`); `period` strings `YYYY-MM` are kept as
`(year, month)`.  `price`/`sales` are nullable in the raw CSV. -/
structure RawPriceRow where
  periodYear : Nat
  periodMonth : Nat
  state : String
  price_cents_per_kwh : Option ℚ
  sales_mwh : Option ℚ
  sectorName : String
deriving DecidableEq, Repr

/-- A cleaned EIA price row as written to `eia_prices_clean.csv`. -/
structure CleanPriceRow where
  date : Date
  state : String
  price_cents_per_kwh : ℚ
  sales_mwh : ℚ
  sectorName : String
  price_per_kwh : ℚ
deriving DecidableEq, Repr

/-- Per-row effect of `DataCleaner.clean_eia_prices`, lines 50-63: parse
`date` (`%Y-%m` → first of month), drop the row if price or sales is
null, keep `1 ≤ price_cents_per_kwh ≤ 100`, keep states in `US_STATES`,
and add `price_per_kwh = price_cents_per_kwh / 100`. -/
def cleanPriceRowF (r : RawPriceRow) : Option CleanPriceRow :=
  match r.price_cents_per_kwh, r.sales_mwh with
  | some p, some s =>
      if 1 ≤ p ∧ p ≤ 100 then
        if r.state ∈ US_STATES then
          some { date := ⟨r.periodYear, r.periodMonth, 1⟩
                 state := r.state
                 price_cents_per_kwh := p
                 sales_mwh := s
                 sectorName := r.sectorName
                 price_per_kwh := p / 100 }
        else none
      else none
  | _, _ => none

/-- `DataCleaner.clean_eia_prices` as a table transformation
(`dropna` + the two filters + the derived column, applied row-wise). -/
def clean_eia_prices (raw : List RawPriceRow) : List CleanPriceRow :=
  raw.filterMap cleanPriceRowF

/-- A raw facility record from `datacenters_*.csv`. -/
structure RawFacilityRow where
  name : String
  company : String
  city : String
  state : String
  latitude : ℚ
  longitude : ℚ
  capacity_mw : ℚ
  is_ai_focused : Bool
  opening_date : Date
  renewable_pct : Option ℚ
deriving DecidableEq, Repr

/-- `df['state'].str.upper().str.strip()` (line 80). -/
def normState (r : RawFacilityRow) : RawFacilityRow :=
  { r with state := r.state.toUpper.trim }

/-- The geographic bounding-box filter of lines 82-85. -/
def inBounds (r : RawFacilityRow) : Bool :=
  24 ≤ r.latitude && r.latitude ≤ 71 &&
    -180 ≤ r.longitude && r.longitude ≤ -66

/-- `df['renewable_pct'].clip(0, 100)` (line 87): clamp into `[0, 100]`;
pandas `clip` leaves NaN (`none`) untouched. -/
def clipRenewable (r : RawFacilityRow) : RawFacilityRow :=
  { r with renewable_pct := r.renewable_pct.map fun x => min 100 (max 0 x) }

/-- `DataCleaner.clean_datacenter_data`, lines 80-89: uppercase/strip the
state, filter to the latitude/longitude bounding box, clamp
`renewable_pct` to `[0, 100]` (`opening_date` is already a date here). -/
def clean_datacenter_data (raw : List RawFacilityRow) : List RawFacilityRow :=
  ((raw.map normState).filter inBounds).map clipRenewable

/-! ## Warehouse tables (scripts/03_data_transformation.py, load_data.py) -/

/-- A `dim_date` row: surrogate key and literal date (pre-populated by the
external schema script; the loaders only read it). -/
structure DateDimRow where
  date_id : Nat
  full_date : Date
deriving DecidableEq, Repr

/-- A `dim_datacenters` row; `datacenter_id` is the serial key the
database assigns on append. -/
structure DatacenterRow where
  datacenter_id : Nat
  name : String
  company : String
  location_city : String
  location_state : String
  latitude : ℚ
  longitude : ℚ
  capacity_mw : ℚ
  is_ai_focused : Bool
  opening_date : Date
  renewable_energy_pct : Option ℚ
deriving DecidableEq, Repr

/-- A `fact_electricity_prices` row. -/
structure PriceFactRow where
  region : String
  date_id : Nat
  price_per_kwh : ℚ
  price_cents_per_kwh : ℚ
  sales_mwh : ℚ
  price_type : String
  sector : String
deriving DecidableEq, Repr

/-- A `fact_energy_consumption` row (`pue` is the `pue_ratio` column). -/
structure ConsumptionFactRow where
  datacenter_id : Nat
  date_id : Nat
  energy_consumed_mwh : ℚ
  renewable_energy_mwh : ℚ
  pue : ℚ
  source : String
deriving DecidableEq, Repr

/-- The committed database state.  `next_dc_id` models the serial
sequence backing `dim_datacenters.datacenter_id`. -/
structure DBState where
  dim_datacenters : List DatacenterRow
  dim_date : List DateDimRow
  fact_electricity_prices : List PriceFactRow
  fact_energy_consumption : List ConsumptionFactRow
  next_dc_id : Nat
deriving DecidableEq, Repr

/-- The column renames of `DatabaseLoader.load_datacenters` (lines 50-65):
`city → location_city`, `state → location_state`,
`renewable_pct → renewable_energy_pct`; values are copied unchanged
(`astype(bool)` and `to_datetime` are identities here). -/
def toDatacenterRow (id : Nat) (f : RawFacilityRow) : DatacenterRow :=
  { datacenter_id := id
    name := f.name
    company := f.company
    location_city := f.city
    location_state := f.state
    latitude := f.latitude
    longitude := f.longitude
    capacity_mw := f.capacity_mw
    is_ai_focused := f.is_ai_focused
    opening_date := f.opening_date
    renewable_energy_pct := f.renewable_pct }

/-- `DatabaseLoader.load_datacenters` (lines 42-78): bulk-append the
cleaned facility table to `dim_datacenters` via `to_sql` (which commits
on the engine's connection) and return the input row count. -/
def load_datacenters_db (dcs : List RawFacilityRow) (s : DBState) :
    Nat × DBState :=
  let rows := dcs.enum.map fun p => toDatacenterRow (s.next_dc_id + p.1) p.2
  (dcs.length,
   { s with dim_datacenters := s.dim_datacenters ++ rows
            next_dc_id := s.next_dc_id + dcs.length })

/-- The point query of lines 98-102:
`SELECT date_id FROM dim_date WHERE full_date = %s` with `fetchone`
(first matching row, if any). -/
def lookup_date_id (dimDate : List DateDimRow) (d : Date) : Option Nat :=
  (dimDate.find? fun r => decide (r.full_date = d)).map (·.date_id)

/-- Whether a natural date has a matching `dim_date` entry. -/
def hasDateMatch (dimDate : List DateDimRow) (d : Date) : Bool :=
  (lookup_date_id dimDate d).isSome

/-- The dict appended per resolved row by
`DatabaseLoader.load_electricity_prices` (lines 106-114): constant tags
`price_type = 'retail'`, `sector = 'all'`. -/
def priceFactOfRow (row : CleanPriceRow) (did : Nat) : PriceFactRow :=
  { region := row.state
    date_id := did
    price_per_kwh := row.price_per_kwh
    price_cents_per_kwh := row.price_cents_per_kwh
    sales_mwh := row.sales_mwh
    price_type := "retail"
    sector := "all" }

/-- The rows `DatabaseLoader.load_electricity_prices` (lines 90-117)
accumulates in `prices_with_ids`: one fact row per input row whose date
resolves via the per-row point query. -/
def load_electricity_prices_rows (dimDate : List DateDimRow)
    (df : List CleanPriceRow) : List PriceFactRow :=
  df.filterMap fun row =>
    (lookup_date_id dimDate row.date).map (priceFactOfRow row)

/-- Warning lines printed by `load_electricity_prices`: the only warning
is `⚠️ No price records to load` when nothing resolved (lines 119-128). -/
def load_electricity_prices_warning_count (dimDate : List DateDimRow)
    (df : List CleanPriceRow) : Nat :=
  if (load_electricity_prices_rows dimDate df).length = 0 then 1 else 0

/-- `DatabaseLoader.load_electricity_prices` as a state transformer:
append the resolved rows to `fact_electricity_prices` and return
`len(df_load)`. -/
def load_electricity_prices_db (df : List CleanPriceRow) (s : DBState) :
    Nat × DBState :=
  let rows := load_electricity_prices_rows s.dim_date df
  (rows.length,
   { s with fact_electricity_prices := s.fact_electricity_prices ++ rows })

/-- The fact row built by `load_eia_prices` (load_data.py lines 160-168)
for a merged (price row, `dim_date` row) pair: tags are
`price_type = 'average'` and the row's own `sectorName`. -/
def priceFactOfRowBulk (row : CleanPriceRow) (r : DateDimRow) :
    PriceFactRow :=
  { region := row.state
    date_id := r.date_id
    price_per_kwh := row.price_per_kwh
    price_cents_per_kwh := row.price_cents_per_kwh
    sales_mwh := row.sales_mwh
    price_type := "average"
    sector := row.sectorName }

/-- The bulk-join variant `load_eia_prices` (load_data.py lines 133-174):
left-merge the price table with the full `dim_date` table on the date,
drop rows whose `date_id` is missing.  A left row with several matches
yields one output row per match; an unmatched row yields none (dropped
by `dropna(subset=['date_id'])`). -/
def load_eia_prices_rows (dimDate : List DateDimRow)
    (df : List CleanPriceRow) : List PriceFactRow :=
  df.flatMap fun row =>
    (dimDate.filter fun r => decide (r.full_date = row.date)).map
      (priceFactOfRowBulk row)

/-- `missing` in load_data.py lines 153-157: the number of input rows
whose date has no `dim_date` match (each contributes exactly one
NaN-keyed row to the left merge). -/
def load_eia_prices_missing (dimDate : List DateDimRow)
    (df : List CleanPriceRow) : Nat :=
  (df.filter fun row => !hasDateMatch dimDate row.date).length

/-- `load_eia_prices` prints one warning block iff `missing` is
non-empty (lines 154-156). -/
def load_eia_prices_warning_count (dimDate : List DateDimRow)
    (df : List CleanPriceRow) : Nat :=
  if load_eia_prices_missing dimDate df = 0 then 0 else 1

/-- One record of the inner loop of
`DatabaseLoader.generate_sample_energy_consumption` (lines 160-186);
`rU`, `rP` are the two `np.random.random()` draws of the iteration. -/
def consumptionRecord (dc : DatacenterRow) (dateId : Nat) (rU rP : ℚ) :
    ConsumptionFactRow :=
  let utilization : ℚ :=
    if dc.is_ai_focused then 0.85 + 0.10 * rU else 0.70 + 0.20 * rU
  let pueDraw : ℚ :=
    if dc.is_ai_focused then 1.15 + 0.15 * rP else 1.35 + 0.25 * rP
  let hours_in_month : ℚ := 730
  let monthly_consumption := dc.capacity_mw * hours_in_month * utilization
  let renewable_pct := dc.renewable_energy_pct.getD 0
  let renewable_mwh := monthly_consumption * (renewable_pct / 100)
  { datacenter_id := dc.datacenter_id
    date_id := dateId
    energy_consumed_mwh := round2 monthly_consumption
    renewable_energy_mwh := round2 renewable_mwh
    pue := round2 pueDraw
    source := "estimated" }

/-- The date filter of lines 145-151: first-of-month dates between
2020-01-01 and 2024-12-01. -/
def isFirstOfMonthInWindow (d : Date) : Bool :=
  d.day = 1 && Date.leB ⟨2020, 1, 1⟩ d && Date.leB d ⟨2024, 12, 1⟩

/-- `DatabaseLoader.generate_sample_energy_consumption` (lines 132-198):
cross-product the loaded `dim_datacenters` with the windowed `dim_date`
rows, synthesize one estimated record per pair (consuming two random
draws each), append to `fact_energy_consumption`, return the count. -/
def generate_sample_energy_consumption_db (rand : Nat → ℚ) (s : DBState) :
    Nat × DBState :=
  let dc_df := s.dim_datacenters
  let dates_df := s.dim_date.filter fun r => isFirstOfMonthInWindow r.full_date
  let records := dc_df.enum.flatMap fun p =>
    dates_df.enum.map fun q =>
      consumptionRecord p.2 q.2.date_id
        (rand (2 * (p.1 * dates_df.length + q.1)))
        (rand (2 * (p.1 * dates_df.length + q.1) + 1))
  (records.length,
   { s with fact_energy_consumption := s.fact_energy_consumption ++ records })

/-- The orphan query of `verify_data_integrity` (lines 219-225): count of
`fact_energy_consumption` rows whose `datacenter_id` matches no
`dim_datacenters` row (left anti-join). -/
def orphanCount (s : DBState) : Nat :=
  (s.fact_energy_consumption.filter fun ec =>
      !(s.dim_datacenters.any fun dc =>
          decide (dc.datacenter_id = ec.datacenter_id))).length

/-- `DatabaseLoader.verify_data_integrity` (lines 200-232): runs only
SELECT COUNT queries; reports the orphan count and leaves every table as
it was. -/
def verify_data_integrity_db (s : DBState) : Nat × DBState :=
  (orphanCount s, s)

/-- `DatabaseLoader.run_full_load` (lines 234-273).  `datacentersFile` /
`pricesFile` are the processed CSVs (`none` = missing file, so the
`read_csv` inside the corresponding step raises and control jumps to the
`except` branch).  Each `to_sql` call commits on the SQLAlchemy engine's
own connection, so its writes are already durable when an exception is
raised later; the `except` branch's `self.conn.rollback()` acts on the
psycopg2 session, which only ever executed SELECT point queries, hence
the committed state is left exactly as the failed step left it.  The
Boolean result is what `run_full_load` returns. -/
def run_full_load (datacentersFile : Option (List RawFacilityRow))
    (pricesFile : Option (List CleanPriceRow)) (rand : Nat → ℚ)
    (s : DBState) : Bool × DBState :=
  match datacentersFile with
  | none => (false, s)
  | some dcs =>
    let s1 := (load_datacenters_db dcs s).2
    match pricesFile with
    | none => (false, s1)
    | some prices =>
      let s2 := (load_electricity_prices_db prices s1).2
      let s3 := (generate_sample_energy_consumption_db rand s2).2
      (true, (verify_data_integrity_db s3).2)

/-- Exit code of `python 03_data_transformation.py`: the `__main__` block
(lines 276-283) prints a message in both the success and the failure
branch and never calls `sys.exit`, so the interpreter always exits 0. -/
def script_exit_code (_success : Bool) : Nat := 0

/-! ## Helper lemmas -/

lemma roundHalfEvenInt_ge_floor (n : ℚ) : ⌊n⌋ ≤ roundHalfEvenInt n := by
  unfold roundHalfEvenInt
  split_ifs <;> omega

lemma roundHalfEvenInt_le_floor_add_one (n : ℚ) :
    roundHalfEvenInt n ≤ ⌊n⌋ + 1 := by
  unfold roundHalfEvenInt
  split_ifs <;> omega

lemma le_round2 {k : ℤ} {x : ℚ} (h : (k : ℚ) ≤ x) : (k : ℚ) ≤ round2 x := by
  have h1 : (k * 100 : ℤ) ≤ ⌊x * 100⌋ := by
    rw [Int.le_floor]
    push_cast
    nlinarith
  have h2 := roundHalfEvenInt_ge_floor (x * 100)
  unfold round2
  rw [le_div_iff₀ (by norm_num : (0 : ℚ) < 100)]
  have h3 : (k * 100 : ℤ) ≤ roundHalfEvenInt (x * 100) := le_trans h1 h2
  exact_mod_cast h3

lemma round2_le {k : ℤ} {x : ℚ} (h : x < k) : round2 x ≤ (k : ℚ) := by
  have h1 : ⌊x * 100⌋ < k * 100 := by
    rw [Int.floor_lt]
    push_cast
    nlinarith
  have h2 := roundHalfEvenInt_le_floor_add_one (x * 100)
  unfold round2
  rw [div_le_iff₀ (by norm_num : (0 : ℚ) < 100)]
  have h3 : roundHalfEvenInt (x * 100) ≤ k * 100 := by omega
  exact_mod_cast h3

lemma round2_zero : round2 0 = 0 := by
  norm_num [round2, roundHalfEvenInt]

/-! ## Claim theorems -/

/-- C4. Every row of the cleaned price table produced by
`clean_eia_prices` has `price_cents_per_kwh` in `[1, 100]` and
`price_per_kwh` exactly equal to `price_cents_per_kwh / 100`, and stems
from a raw row whose price and sales volume were both non-null (rows
with a null price, a null sales volume, or an out-of-range price never
reach the cleaned output). -/
theorem clean_eia_prices_bounds (raw : List RawPriceRow) (r : CleanPriceRow)
    (hr : r ∈ clean_eia_prices raw) :
    1 ≤ r.price_cents_per_kwh ∧ r.price_cents_per_kwh ≤ 100 ∧
    r.price_per_kwh = r.price_cents_per_kwh / 100 ∧
    ∃ rr ∈ raw, rr.price_cents_per_kwh = some r.price_cents_per_kwh ∧
      rr.sales_mwh = some r.sales_mwh := by
  simp only [clean_eia_prices, List.mem_filterMap] at hr
  obtain ⟨rr, hmem, heq⟩ := hr
  unfold cleanPriceRowF at heq
  split at heq
  · split_ifs at heq with h1 h2
    cases heq
    rename_i p s hp hs
    exact ⟨h1.1, h1.2, rfl, rr, hmem, by simp [hp], by simp [hs]⟩
  · exact absurd heq (by simp)

/-- Concrete instantiation of the C4 theorem: a raw table with one valid
row, one null-price row and one out-of-range row. -/
def c4RawTable : List RawPriceRow :=
  [⟨2023, 5, "VA", some 10, some 500, "all sectors"⟩,
   ⟨2023, 5, "VA", none, some 500, "all sectors"⟩,
   ⟨2023, 5, "VA", some 250, some 500, "all sectors"⟩]

def c4CleanRow : CleanPriceRow :=
  ⟨⟨2023, 5, 1⟩, "VA", 10, 500, "all sectors", 10 / 100⟩

theorem clean_eia_prices_bounds_witness :
    1 ≤ c4CleanRow.price_cents_per_kwh ∧
    c4CleanRow.price_cents_per_kwh ≤ 100 ∧
    c4CleanRow.price_per_kwh = c4CleanRow.price_cents_per_kwh / 100 ∧
    ∃ rr ∈ c4RawTable,
      rr.price_cents_per_kwh = some c4CleanRow.price_cents_per_kwh ∧
      rr.sales_mwh = some c4CleanRow.sales_mwh :=
  clean_eia_prices_bounds c4RawTable c4CleanRow (by
    rw [show clean_eia_prices c4RawTable = [c4CleanRow] from rfl]
    exact List.mem_singleton_self _)

/-- C5. Every row of the cleaned facility table produced by
`clean_datacenter_data` has latitude in `[24, 71]` and longitude in
`[-180, -66]`, and exactly the in-box input rows survive (an input row
outside the box, e.g. with latitude 10, contributes nothing to the
cleaned output). -/
theorem clean_datacenter_data_bounds (raw : List RawFacilityRow) :
    (∀ r ∈ clean_datacenter_data raw,
      24 ≤ r.latitude ∧ r.latitude ≤ 71 ∧
      -180 ≤ r.longitude ∧ r.longitude ≤ -66) ∧
    (clean_datacenter_data raw).length = (raw.filter inBounds).length := by
  constructor
  · intro r hr
    simp only [clean_datacenter_data, List.mem_map, List.mem_filter] at hr
    obtain ⟨a, ⟨_, hb⟩, ha⟩ := hr
    have hlat : a.latitude = r.latitude := by rw [← ha]; rfl
    have hlon : a.longitude = r.longitude := by rw [← ha]; rfl
    simp only [inBounds, Bool.and_eq_true, decide_eq_true_eq] at hb
    rw [hlat, hlon] at hb
    exact ⟨hb.1.1.1, hb.1.1.2, hb.1.2, hb.2⟩
  · unfold clean_datacenter_data
    rw [List.length_map, List.filter_map, List.length_map]
    congr 1

/-- An in-box facility row used by the C5 scenario. -/
def c5Row0 : RawFacilityRow :=
  ⟨"DC East", "Acme", "Ashburn", "VA", 39, -77, 100, true,
    ⟨2020, 1, 1⟩, some 50⟩

/-- Concrete facility table for the C5 scenario: one in-box row and one
row with latitude 10 (outside the box). -/
def c5RawTable : List RawFacilityRow :=
  [c5Row0,
   ⟨"DC Out", "Acme", "Nowhere", "XX", 10, -77, 50, false,
     ⟨2020, 1, 1⟩, some 50⟩]

/-- The single row surviving the cleaning of `c5RawTable` (the
latitude-10 row is dropped). -/
def c5CleanRow : RawFacilityRow :=
  clipRenewable (normState c5Row0)

theorem clean_datacenter_data_bounds_witness :
    (24 ≤ c5CleanRow.latitude ∧ c5CleanRow.latitude ≤ 71 ∧
     -180 ≤ c5CleanRow.longitude ∧ c5CleanRow.longitude ≤ -66) ∧
    (clean_datacenter_data c5RawTable).length =
      (c5RawTable.filter inBounds).length :=
  ⟨(clean_datacenter_data_bounds c5RawTable).1 c5CleanRow (by
      rw [show clean_datacenter_data c5RawTable = [c5CleanRow] from rfl]
      exact List.mem_singleton_self _),
   (clean_datacenter_data_bounds c5RawTable).2⟩

/-- C9. The Cleaner clamps `renewable_pct` into `[0, 100]` instead of
dropping the row: any in-box input row survives into the cleaned output
with its renewable percentage clipped, a row with `renewable_pct = 150`
comes out with exactly 100, and the loaded `dim_datacenters` row carries
that clamped value unchanged (as `renewable_energy_pct`). -/
theorem renewable_pct_clamped (raw : List RawFacilityRow)
    (rr : RawFacilityRow) (hmem : rr ∈ raw)
    (hb : inBounds (normState rr) = true) (id : Nat) :
    clipRenewable (normState rr) ∈ clean_datacenter_data raw ∧
    (clipRenewable (normState rr)).renewable_pct
      = rr.renewable_pct.map (fun x => min 100 (max 0 x)) ∧
    (rr.renewable_pct = some 150 →
      (clipRenewable (normState rr)).renewable_pct = some 100 ∧
      (toDatacenterRow id (clipRenewable (normState rr))).renewable_energy_pct
        = some 100) := by
  refine ⟨?_, rfl, ?_⟩
  · unfold clean_datacenter_data
    exact List.mem_map_of_mem _
      (List.mem_filter.mpr ⟨List.mem_map_of_mem _ hmem, hb⟩)
  · intro h150
    have h : (clipRenewable (normState rr)).renewable_pct = some 100 := by
      show (rr.renewable_pct.map fun x => min 100 (max 0 x)) = some 100
      rw [h150]
      norm_num
    exact ⟨h, h⟩

/-- The C9 scenario row: in-box, `renewable_pct = 150`. -/
def c9Row : RawFacilityRow :=
  ⟨"DC Clip", "Acme", "Dallas", "TX", 32, -96, 80, false,
    ⟨2021, 6, 1⟩, some 150⟩

theorem renewable_pct_clamped_witness :
    clipRenewable (normState c9Row) ∈ clean_datacenter_data [c9Row] ∧
    (clipRenewable (normState c9Row)).renewable_pct
      = c9Row.renewable_pct.map (fun x => min 100 (max 0 x)) ∧
    (c9Row.renewable_pct = some 150 →
      (clipRenewable (normState c9Row)).renewable_pct = some 100 ∧
      (toDatacenterRow 1 (clipRenewable (normState c9Row))).renewable_energy_pct
        = some 100) :=
  renewable_pct_clamped [c9Row] c9Row (List.mem_singleton_self _) rfl 1

/-- C10. A facility row with a missing (`none`) `renewable_pct` is kept
by the clamp with the value still missing, the loaded `dim_datacenters`
row keeps it missing, and `generate_sample_energy_consumption`
substitutes zero only in its renewable-energy computation, so every
generated record for that datacenter has `renewable_energy_mwh = 0`. -/
theorem missing_renewable_yields_zero (raw : List RawFacilityRow)
    (rr : RawFacilityRow) (hmem : rr ∈ raw)
    (hb : inBounds (normState rr) = true)
    (hnone : rr.renewable_pct = none) (id dateId : Nat) (rU rP : ℚ) :
    clipRenewable (normState rr) ∈ clean_datacenter_data raw ∧
    (clipRenewable (normState rr)).renewable_pct = none ∧
    (toDatacenterRow id (clipRenewable (normState rr))).renewable_energy_pct
      = none ∧
    (consumptionRecord (toDatacenterRow id (clipRenewable (normState rr)))
        dateId rU rP).renewable_energy_mwh = 0 := by
  have hclean : (clipRenewable (normState rr)).renewable_pct = none := by
    show (rr.renewable_pct.map fun x => min 100 (max 0 x)) = none
    rw [hnone]
    rfl
  refine ⟨?_, hclean, hclean, ?_⟩
  · unfold clean_datacenter_data
    exact List.mem_map_of_mem _
      (List.mem_filter.mpr ⟨List.mem_map_of_mem _ hmem, hb⟩)
  · show round2 ((toDatacenterRow id (clipRenewable (normState rr))).capacity_mw
        * 730
        * (if (toDatacenterRow id (clipRenewable (normState rr))).is_ai_focused
            then 0.85 + 0.10 * rU else 0.70 + 0.20 * rU)
        * ((toDatacenterRow id
            (clipRenewable (normState rr))).renewable_energy_pct.getD 0 / 100))
      = 0
    rw [show (toDatacenterRow id
        (clipRenewable (normState rr))).renewable_energy_pct = none from hclean]
    norm_num [round2_zero]

/-- The C10 scenario row: in-box, missing `renewable_pct`. -/
def c10Row : RawFacilityRow :=
  ⟨"DC NoRen", "Acme", "Boise", "ID", 43, -116, 40, true,
    ⟨2022, 3, 1⟩, none⟩

theorem missing_renewable_yields_zero_witness :
    clipRenewable (normState c10Row) ∈ clean_datacenter_data [c10Row] ∧
    (clipRenewable (normState c10Row)).renewable_pct = none ∧
    (toDatacenterRow 1 (clipRenewable (normState c10Row))).renewable_energy_pct
      = none ∧
    (consumptionRecord (toDatacenterRow 1 (clipRenewable (normState c10Row)))
        7 (1/2) (1/2)).renewable_energy_mwh = 0 :=
  missing_renewable_yields_zero [c10Row] c10Row (List.mem_singleton_self _)
    rfl rfl 1 7 (1/2) (1/2)

/-! ## Cleaner run and CSV serialization (for the idempotence claim) -/

/-- Serialization of an optional numeric cell (`to_csv` writes NaN as an
empty cell). -/
def csvOpt (o : Option ℚ) : String :=
  match o with
  | none => ""
  | some q => toString q

/-- `YYYY-MM-DD`-style cell for a date. -/
def csvDate (d : Date) : String :=
  toString d.year ++ "-" ++ toString d.month ++ "-" ++ toString d.day

/-- One CSV line of `eia_prices_clean.csv`. -/
def csvPriceRow (r : CleanPriceRow) : String :=
  String.intercalate ","
    [csvDate r.date, r.state, toString r.price_cents_per_kwh,
     toString r.sales_mwh, r.sectorName, toString r.price_per_kwh]

/-- One CSV line of `datacenters_clean.csv`. -/
def csvFacilityRow (r : RawFacilityRow) : String :=
  String.intercalate ","
    [r.name, r.company, r.city, r.state, toString r.latitude,
     toString r.longitude, toString r.capacity_mw, toString r.is_ai_focused,
     csvDate r.opening_date, csvOpt r.renewable_pct]

/-- The ambient state a Cleaner run starts from: the raw snapshot tables
it selected, plus a wall clock (other stages do read the clock — raw
snapshot names are timestamped — so the embedding carries it
explicitly and the theorem shows cleaning ignores it). -/
structure CleanerWorld where
  rawPrices : List RawPriceRow
  rawFacilities : List RawFacilityRow
  clock : Nat

/-- `DataCleaner.run_all_cleaning` restricted to its two data outputs:
the bytes of `eia_prices_clean.csv` and of `datacenters_clean.csv`
(fixed output names, each run overwrites the previous file). -/
def run_all_cleaning (w : CleanerWorld) : String × String :=
  (String.intercalate "\n" ((clean_eia_prices w.rawPrices).map csvPriceRow),
   String.intercalate "\n"
     ((clean_datacenter_data w.rawFacilities).map csvFacilityRow))

/-- C8. Cleaning is a pure function of the raw snapshot tables: two
Cleaner runs that read the same raw input write byte-identical cleaned
files, whatever the wall clock says in either run. -/
theorem cleaner_deterministic (w w' : CleanerWorld)
    (hp : w.rawPrices = w'.rawPrices)
    (hf : w.rawFacilities = w'.rawFacilities) :
    run_all_cleaning w = run_all_cleaning w' := by
  unfold run_all_cleaning
  rw [hp, hf]

theorem cleaner_deterministic_witness :
    run_all_cleaning ⟨c4RawTable, c5RawTable, 0⟩
      = run_all_cleaning ⟨c4RawTable, c5RawTable, 123456⟩ :=
  cleaner_deterministic ⟨c4RawTable, c5RawTable, 0⟩
    ⟨c4RawTable, c5RawTable, 123456⟩ rfl rfl

/-! ## The consumption generator's per-record contract -/

/-- C6. Each record synthesized by the generator loop: the utilization
draw lies in `[0.85, 0.95]` for an AI-focused datacenter and `[0.70,
0.90]` otherwise, the PUE draw lies in `[1.15, 1.30]` resp. `[1.35,
1.60]`, the stored energy is `capacity_mw * 730 * utilization` (rounded
to 2 decimals on storage), the stored renewable energy is that monthly
energy times `renewable_pct / 100` with a missing percentage read as 0,
every record is tagged `source = "estimated"`, and for an AI-focused
datacenter with `capacity_mw = 100` the stored monthly energy lies in
`[62050, 69350]`. -/
theorem consumptionRecord_contract (dc : DatacenterRow) (dateId : Nat)
    (rU rP : ℚ) (hU0 : 0 ≤ rU) (hU1 : rU < 1) (hP0 : 0 ≤ rP) (hP1 : rP < 1) :
    ∃ utilization pueDraw : ℚ,
      (if dc.is_ai_focused then
        0.85 ≤ utilization ∧ utilization ≤ 0.95 ∧
        1.15 ≤ pueDraw ∧ pueDraw ≤ 1.30
       else
        0.70 ≤ utilization ∧ utilization ≤ 0.90 ∧
        1.35 ≤ pueDraw ∧ pueDraw ≤ 1.60) ∧
      consumptionRecord dc dateId rU rP =
        { datacenter_id := dc.datacenter_id
          date_id := dateId
          energy_consumed_mwh := round2 (dc.capacity_mw * 730 * utilization)
          renewable_energy_mwh := round2 ((dc.capacity_mw * 730 * utilization)
            * (dc.renewable_energy_pct.getD 0 / 100))
          pue := round2 pueDraw
          source := "estimated" } ∧
      (dc.is_ai_focused = true → dc.capacity_mw = 100 →
        62050 ≤ (consumptionRecord dc dateId rU rP).energy_consumed_mwh ∧
        (consumptionRecord dc dateId rU rP).energy_consumed_mwh ≤ 69350) := by
  refine ⟨if dc.is_ai_focused then 0.85 + 0.10 * rU else 0.70 + 0.20 * rU,
    if dc.is_ai_focused then 1.15 + 0.15 * rP else 1.35 + 0.25 * rP,
    ?_, rfl, ?_⟩
  · rcases h : dc.is_ai_focused <;>
      simp only [h, Bool.false_eq_true, if_false, if_true] <;>
      exact ⟨by linarith, by linarith, by linarith, by linarith⟩
  · intro hai hcap
    have hen : (consumptionRecord dc dateId rU rP).energy_consumed_mwh
        = round2 (100 * 730 * (0.85 + 0.10 * rU)) := by
      show round2 (dc.capacity_mw * 730
        * (if dc.is_ai_focused then 0.85 + 0.10 * rU else 0.70 + 0.20 * rU))
        = _
      rw [hai, hcap]
      norm_num
    rw [hen]
    constructor
    · have : ((62050 : ℤ) : ℚ) ≤ 100 * 730 * (0.85 + 0.10 * rU) := by
        push_cast
        nlinarith
      have h2 := le_round2 this
      exact_mod_cast h2
    · have : (100 : ℚ) * 730 * (0.85 + 0.10 * rU) < ((69350 : ℤ) : ℚ) := by
        push_cast
        nlinarith
      have h2 := round2_le this
      exact_mod_cast h2

/-- Concrete AI-focused datacenter with `capacity_mw = 100` for the C6
scenario. -/
def c6DC : DatacenterRow :=
  ⟨1, "AI DC", "Acme", "Ashburn", "VA", 39, -77, 100, true,
    ⟨2020, 1, 1⟩, some 50⟩

theorem consumptionRecord_contract_witness :
    ∃ utilization pueDraw : ℚ,
      (if c6DC.is_ai_focused then
        0.85 ≤ utilization ∧ utilization ≤ 0.95 ∧
        1.15 ≤ pueDraw ∧ pueDraw ≤ 1.30
       else
        0.70 ≤ utilization ∧ utilization ≤ 0.90 ∧
        1.35 ≤ pueDraw ∧ pueDraw ≤ 1.60) ∧
      consumptionRecord c6DC 7 (1/2) (1/2) =
        { datacenter_id := c6DC.datacenter_id
          date_id := 7
          energy_consumed_mwh := round2 (c6DC.capacity_mw * 730 * utilization)
          renewable_energy_mwh := round2 ((c6DC.capacity_mw * 730 * utilization)
            * (c6DC.renewable_energy_pct.getD 0 / 100))
          pue := round2 pueDraw
          source := "estimated" } ∧
      (c6DC.is_ai_focused = true → c6DC.capacity_mw = 100 →
        62050 ≤ (consumptionRecord c6DC 7 (1/2) (1/2)).energy_consumed_mwh ∧
        (consumptionRecord c6DC 7 (1/2) (1/2)).energy_consumed_mwh ≤ 69350) :=
  consumptionRecord_contract c6DC 7 (1/2) (1/2)
    (by norm_num) (by norm_num) (by norm_num) (by norm_num)

/-! ## Key resolution in the price loaders -/

lemma load_electricity_prices_rows_length (dim : List DateDimRow)
    (df : List CleanPriceRow) :
    (load_electricity_prices_rows dim df).length
      = (df.filter fun row => hasDateMatch dim row.date).length := by
  induction df with
  | nil => rfl
  | cons a t ih =>
    cases hl : lookup_date_id dim a.date with
    | none =>
      have hm : hasDateMatch dim a.date = false := by
        simp [hasDateMatch, hl]
      have h1 : load_electricity_prices_rows dim (a :: t)
          = load_electricity_prices_rows dim t := by
        simp [load_electricity_prices_rows, List.filterMap_cons, hl]
      rw [h1, List.filter_cons, hm]
      simpa using ih
    | some did =>
      have hm : hasDateMatch dim a.date = true := by
        simp [hasDateMatch, hl]
      have h1 : load_electricity_prices_rows dim (a :: t)
          = priceFactOfRow a did :: load_electricity_prices_rows dim t := by
        simp [load_electricity_prices_rows, List.filterMap_cons, hl]
      rw [h1, List.filter_cons, hm]
      simpa using ih

lemma load_electricity_prices_rows_mem (dim : List DateDimRow)
    (df : List CleanPriceRow) (f : PriceFactRow)
    (hf : f ∈ load_electricity_prices_rows dim df) :
    ∃ row ∈ df, ∃ dr ∈ dim, dr.full_date = row.date ∧
      f = priceFactOfRow row dr.date_id := by
  obtain ⟨row, hrow, heq⟩ := List.mem_filterMap.mp hf
  cases hl : lookup_date_id dim row.date with
  | none =>
    rw [hl] at heq
    exact absurd heq (by simp)
  | some did =>
    rw [hl] at heq
    have hfd : f = priceFactOfRow row did := by simpa using heq.symm
    unfold lookup_date_id at hl
    cases hfind : dim.find? fun r => decide (r.full_date = row.date) with
    | none =>
      rw [hfind] at hl
      exact absurd hl (by simp)
    | some dr =>
      rw [hfind] at hl
      simp only [Option.map_some', Option.some.injEq] at hl
      have hpd : dr.full_date = row.date := by
        simpa using List.find?_some hfind
      refine ⟨row, hrow, dr, List.mem_of_find?_eq_some hfind, hpd, ?_⟩
      rw [hfd, hl]

lemma lookup_none_of_no_match (dim : List DateDimRow) (d : Date)
    (h : hasDateMatch dim d = false) : lookup_date_id dim d = none := by
  cases hl : lookup_date_id dim d with
  | none => rfl
  | some v => simp [hasDateMatch, hl] at h

/-- C2. `load_electricity_prices` resolves each price row's date to the
surrogate key of the (unique, given a duplicate-free date dimension)
`dim_date` row carrying that literal date; rows with an unmatched date
are excluded — never loaded with a substitute key — the returned count
is exactly the number of matched rows, and a one-row table whose date
has no match produces zero loaded rows and exactly one warning (in both
the point-query loader and the bulk-join loader). -/
theorem load_electricity_prices_key_resolution (dim : List DateDimRow)
    (df : List CleanPriceRow)
    (hnd : (dim.map DateDimRow.full_date).Nodup) :
    ((load_electricity_prices_rows dim df).length
       = (df.filter fun row => hasDateMatch dim row.date).length) ∧
    (∀ f ∈ load_electricity_prices_rows dim df, ∃ row ∈ df, ∃ dr ∈ dim,
        dr.full_date = row.date ∧
        (∀ dr' ∈ dim, dr'.full_date = row.date → dr' = dr) ∧
        f = priceFactOfRow row dr.date_id) ∧
    (∀ row : CleanPriceRow, hasDateMatch dim row.date = false →
        load_electricity_prices_rows dim [row] = [] ∧
        load_electricity_prices_warning_count dim [row] = 1 ∧
        load_eia_prices_rows dim [row] = [] ∧
        load_eia_prices_warning_count dim [row] = 1) := by
  refine ⟨load_electricity_prices_rows_length dim df, ?_, ?_⟩
  · intro f hf
    obtain ⟨row, hrow, dr, hdr, hdate, hfe⟩ :=
      load_electricity_prices_rows_mem dim df f hf
    refine ⟨row, hrow, dr, hdr, hdate, ?_, hfe⟩
    intro dr' hdr' hdate'
    exact List.inj_on_of_nodup_map hnd hdr' hdr (by rw [hdate', hdate])
  · intro row hrow
    have hl : lookup_date_id dim row.date = none :=
      lookup_none_of_no_match dim row.date hrow
    have hrows : load_electricity_prices_rows dim [row] = [] := by
      simp [load_electricity_prices_rows, hl]
    have hfind : (dim.find? fun r => decide (r.full_date = row.date))
        = none := by
      unfold lookup_date_id at hl
      exact Option.map_eq_none'.mp hl
    have hfilter : (dim.filter fun r => decide (r.full_date = row.date))
        = [] := by
      rw [List.filter_eq_nil_iff]
      intro r hr
      exact List.find?_eq_none.mp hfind r hr
    refine ⟨hrows, ?_, ?_, ?_⟩
    · simp [load_electricity_prices_warning_count, hrows]
    · simp [load_eia_prices_rows, hfilter]
    · simp [load_eia_prices_warning_count, load_eia_prices_missing, hrow]

/-- A two-day date dimension (distinct dates). -/
def c2Dim : List DateDimRow := [⟨1, ⟨2023, 5, 1⟩⟩, ⟨2, ⟨2023, 6, 1⟩⟩]

/-- A cleaned price row whose date matches `c2Dim`. -/
def c2Row : CleanPriceRow :=
  ⟨⟨2023, 5, 1⟩, "VA", 10, 500, "residential", 1/10⟩

/-- A cleaned price row whose date has no `c2Dim` match. -/
def c2RowNoMatch : CleanPriceRow :=
  ⟨⟨1999, 1, 1⟩, "VA", 10, 500, "residential", 1/10⟩

def c2Df : List CleanPriceRow := [c2Row, c2RowNoMatch]

theorem load_electricity_prices_key_resolution_witness :
    ((load_electricity_prices_rows c2Dim c2Df).length
       = (c2Df.filter fun row => hasDateMatch c2Dim row.date).length) ∧
    (∃ row ∈ c2Df, ∃ dr ∈ c2Dim, dr.full_date = row.date ∧
        (∀ dr' ∈ c2Dim, dr'.full_date = row.date → dr' = dr) ∧
        priceFactOfRow c2Row 1 = priceFactOfRow row dr.date_id) ∧
    (load_electricity_prices_rows c2Dim [c2RowNoMatch] = [] ∧
     load_electricity_prices_warning_count c2Dim [c2RowNoMatch] = 1 ∧
     load_eia_prices_rows c2Dim [c2RowNoMatch] = [] ∧
     load_eia_prices_warning_count c2Dim [c2RowNoMatch] = 1) := by
  have h := load_electricity_prices_key_resolution c2Dim c2Df (by decide)
  refine ⟨h.1, ?_, h.2.2 c2RowNoMatch (by rfl)⟩
  exact h.2.1 (priceFactOfRow c2Row 1) (by
    rw [show load_electricity_prices_rows c2Dim c2Df
      = [priceFactOfRow c2Row 1] from rfl]
    exact List.mem_singleton_self _)

/-! ## Comparing the two price-loader variants -/

/-- The tag-free part of a price fact row: region, surrogate date key,
both price columns and the sales volume. -/
def stripTags (f : PriceFactRow) : String × Nat × ℚ × ℚ × ℚ :=
  (f.region, f.date_id, f.price_per_kwh, f.price_cents_per_kwh, f.sales_mwh)

lemma filter_date_eq_find_toList (dim : List DateDimRow) (d : Date)
    (hnd : (dim.map DateDimRow.full_date).Nodup) :
    (dim.filter fun r => decide (r.full_date = d))
      = (dim.find? fun r => decide (r.full_date = d)).toList := by
  induction dim with
  | nil => rfl
  | cons a t ih =>
    rw [List.map_cons, List.nodup_cons] at hnd
    by_cases h : a.full_date = d
    · have ht : (t.filter fun r => decide (r.full_date = d)) = [] := by
        rw [List.filter_eq_nil_iff]
        intro r hr
        simp only [decide_eq_true_eq]
        intro hrd
        exact hnd.1 (h ▸ hrd ▸ List.mem_map_of_mem DateDimRow.full_date hr)
      rw [List.filter_cons, List.find?_cons]
      simp [h, ht]
    · rw [List.filter_cons, List.find?_cons]
      simp only [h, decide_False]
      exact ih hnd.2

lemma load_eia_prices_rows_eq_filterMap (dim : List DateDimRow)
    (hnd : (dim.map DateDimRow.full_date).Nodup) (df : List CleanPriceRow) :
    load_eia_prices_rows dim df = df.filterMap fun row =>
      (dim.find? fun r => decide (r.full_date = row.date)).map
        (priceFactOfRowBulk row) := by
  induction df with
  | nil => rfl
  | cons a t ih =>
    have htail := ih
    simp only [load_eia_prices_rows, List.flatMap_cons, List.filterMap_cons]
      at htail ⊢
    rw [filter_date_eq_find_toList dim a.date hnd]
    cases h : dim.find? fun r => decide (r.full_date = a.date) with
    | none => simpa [h] using htail
    | some dr => simpa [h] using htail

lemma load_electricity_prices_rows_eq_filterMap (dim : List DateDimRow)
    (df : List CleanPriceRow) :
    load_electricity_prices_rows dim df = df.filterMap fun row =>
      (dim.find? fun r => decide (r.full_date = row.date)).map
        fun dr => priceFactOfRow row dr.date_id := by
  unfold load_electricity_prices_rows lookup_date_id
  congr 1
  funext row
  rw [Option.map_map]
  rfl

/-- C7 (amended). Given a duplicate-free date dimension, the per-row
point-query loader and the bulk-join loader produce the same row count
and agree row-for-row on region, date key, both price columns and sales
volume; they differ exactly in the constant tags: the point-query
variant writes `price_type = 'retail'`, `sector = 'all'`, the bulk
variant writes `price_type = 'average'` and the row's `sectorName`. -/
theorem price_loaders_agree_up_to_tags (dim : List DateDimRow)
    (df : List CleanPriceRow)
    (hnd : (dim.map DateDimRow.full_date).Nodup) :
    (load_eia_prices_rows dim df).length
      = (load_electricity_prices_rows dim df).length ∧
    (load_eia_prices_rows dim df).map stripTags
      = (load_electricity_prices_rows dim df).map stripTags ∧
    (∀ f ∈ load_electricity_prices_rows dim df,
      f.price_type = "retail" ∧ f.sector = "all") ∧
    (∀ f ∈ load_eia_prices_rows dim df, f.price_type = "average") := by
  refine ⟨?_, ?_, ?_, ?_⟩
  · rw [load_eia_prices_rows_eq_filterMap dim hnd df,
      load_electricity_prices_rows_eq_filterMap dim df]
    induction df with
    | nil => rfl
    | cons a t ih =>
      cases h : dim.find? fun r => decide (r.full_date = a.date) with
      | none => simpa [List.filterMap_cons, h] using ih
      | some dr => simpa [List.filterMap_cons, h] using ih
  · rw [load_eia_prices_rows_eq_filterMap dim hnd df,
      load_electricity_prices_rows_eq_filterMap dim df]
    induction df with
    | nil => rfl
    | cons a t ih =>
      cases h : dim.find? fun r => decide (r.full_date = a.date) with
      | none => simpa [List.filterMap_cons, h] using ih
      | some dr =>
        simp only [List.filterMap_cons, h, Option.map_some', List.map_cons]
        rw [ih]
        rfl
  · intro f hf
    obtain ⟨row, _, dr, _, _, hfe⟩ :=
      load_electricity_prices_rows_mem dim df f hf
    rw [hfe]
    exact ⟨rfl, rfl⟩
  · intro f hf
    obtain ⟨row, _, hmem⟩ := List.mem_flatMap.mp hf
    obtain ⟨dr, _, hfe⟩ := List.mem_map.mp hmem
    rw [← hfe]
    rfl

theorem price_loaders_agree_up_to_tags_witness :
    (load_eia_prices_rows c2Dim [c2Row]).length
      = (load_electricity_prices_rows c2Dim [c2Row]).length ∧
    (load_eia_prices_rows c2Dim [c2Row]).map stripTags
      = (load_electricity_prices_rows c2Dim [c2Row]).map stripTags ∧
    ((priceFactOfRow c2Row 1).price_type = "retail" ∧
      (priceFactOfRow c2Row 1).sector = "all") ∧
    (priceFactOfRowBulk c2Row ⟨1, ⟨2023, 5, 1⟩⟩).price_type = "average" := by
  have h := price_loaders_agree_up_to_tags c2Dim [c2Row] (by decide)
  refine ⟨h.1, h.2.1, ?_, ?_⟩
  · exact h.2.2.1 (priceFactOfRow c2Row 1) (by
      rw [show load_electricity_prices_rows c2Dim [c2Row]
        = [priceFactOfRow c2Row 1] from rfl]
      exact List.mem_singleton_self _)
  · exact h.2.2.2 (priceFactOfRowBulk c2Row ⟨1, ⟨2023, 5, 1⟩⟩) (by
      rw [show load_eia_prices_rows c2Dim [c2Row]
        = [priceFactOfRowBulk c2Row ⟨1, ⟨2023, 5, 1⟩⟩] from rfl]
      exact List.mem_singleton_self _)

/-- C7 (counterexample to the claim as stated): on the same one-row
cleaned table and the same date dimension, the two loaders produce
different fact rows — the point query tags `retail`/`all`, the bulk
join tags `average`/`sectorName` — so they do not load the same rows. -/
theorem price_loaders_not_equal :
    load_eia_prices_rows c2Dim [c2Row]
      ≠ load_electricity_prices_rows c2Dim [c2Row] := by
  intro h
  rw [show load_eia_prices_rows c2Dim [c2Row]
        = [priceFactOfRowBulk c2Row ⟨1, ⟨2023, 5, 1⟩⟩] from rfl,
      show load_electricity_prices_rows c2Dim [c2Row]
        = [priceFactOfRow c2Row 1] from rfl] at h
  have h2 := congrArg (fun l => l.map PriceFactRow.price_type) h
  simp only [List.map_cons, List.map_nil, List.cons.injEq] at h2
  exact absurd h2.1 (by decide)

/-! ## Referential integrity of the full load -/

lemma snd_mem_of_mem_enum {α : Type} {l : List α} {x : Nat × α}
    (h : x ∈ l.enum) : x.2 ∈ l := by
  rw [List.mem_enum_iff_getElem?] at h
  exact List.getElem?_mem h

lemma orphanCount_generate (rand : Nat → ℚ) (s : DBState)
    (h : s.fact_energy_consumption = []) :
    orphanCount (generate_sample_energy_consumption_db rand s).2 = 0 := by
  unfold generate_sample_energy_consumption_db orphanCount
  simp only [h, List.nil_append]
  rw [List.length_eq_zero, List.filter_eq_nil_iff]
  intro rec hrec
  obtain ⟨p, hp, hq⟩ := List.mem_flatMap.mp hrec
  obtain ⟨q, _, hre⟩ := List.mem_map.mp hq
  have hid : rec.datacenter_id = p.2.datacenter_id := by rw [← hre]; rfl
  have hany : (s.dim_datacenters.any fun dc =>
      decide (dc.datacenter_id = rec.datacenter_id)) = true := by
    rw [List.any_eq_true]
    exact ⟨p.2, snd_mem_of_mem_enum hp, decide_eq_true hid.symm⟩
  simp [hany]

/-- C3. A full load run with both cleaned files present, starting from a
state with an empty consumption fact table, succeeds; afterwards zero
`fact_energy_consumption` rows have a `datacenter_id` absent from
`dim_datacenters` (the generator draws its keys only from the loaded
dimension rows), and `verify_data_integrity` reports that zero orphan
count while returning every table unchanged. -/
theorem full_load_referential_integrity (dcs : List RawFacilityRow)
    (prices : List CleanPriceRow) (rand : Nat → ℚ) (s0 : DBState)
    (h0 : s0.fact_energy_consumption = []) :
    (run_full_load (some dcs) (some prices) rand s0).1 = true ∧
    orphanCount (run_full_load (some dcs) (some prices) rand s0).2 = 0 ∧
    (verify_data_integrity_db
      (run_full_load (some dcs) (some prices) rand s0).2).1 = 0 ∧
    (verify_data_integrity_db
      (run_full_load (some dcs) (some prices) rand s0).2).2
      = (run_full_load (some dcs) (some prices) rand s0).2 := by
  have hs2 : ((load_electricity_prices_db prices
      (load_datacenters_db dcs s0).2).2).fact_energy_consumption = [] := by
    simp [load_electricity_prices_db, load_datacenters_db, h0]
  have hgen := orphanCount_generate rand _ hs2
  exact ⟨rfl, hgen, hgen, rfl⟩

/-- Initial warehouse for the C3 witness: populated date dimension,
everything else empty. -/
def c3S0 : DBState := ⟨[], c2Dim, [], [], 1⟩

theorem full_load_referential_integrity_witness :
    (run_full_load (some [c5Row0]) (some [c2Row]) (fun _ => 1/2) c3S0).1
      = true ∧
    orphanCount
      (run_full_load (some [c5Row0]) (some [c2Row]) (fun _ => 1/2) c3S0).2
      = 0 ∧
    (verify_data_integrity_db
      (run_full_load (some [c5Row0]) (some [c2Row]) (fun _ => 1/2) c3S0).2).1
      = 0 ∧
    (verify_data_integrity_db
      (run_full_load (some [c5Row0]) (some [c2Row]) (fun _ => 1/2) c3S0).2).2
      = (run_full_load (some [c5Row0]) (some [c2Row]) (fun _ => 1/2) c3S0).2 :=
  full_load_referential_integrity [c5Row0] [c2Row] (fun _ => 1/2) c3S0 rfl

/-! ## The failure path of `run_full_load` -/

/-- Initial warehouse for the C1 failing run: populated date dimension,
everything else empty. -/
def c1S0 : DBState := ⟨[], c2Dim, [], [], 1⟩

/-- The failing run: the cleaned datacenter file is present (one row),
the cleaned price file is missing, so `load_electricity_prices` raises
inside the `try` block after `load_datacenters` has already bulk-written
through the engine. -/
def c1Out : Bool × DBState :=
  run_full_load (some [c5Row0]) none (fun _ => 0) c1S0

/-- C1 (the code, evaluated on the failing input).  When the load fails
midway, `run_full_load` returns `False` — but the datacenter rows
written by the completed first step are still in the committed state
(they were never part of the psycopg2 transaction that `rollback`
acts on), the database state differs from the pre-run state, and the
`__main__` block exits with code 0 because it never calls `sys.exit`.
The claim's rolled-back-and-exit-non-zero behaviour does not hold. -/
theorem run_full_load_rollback_gap :
    c1Out.1 = false ∧
    c1Out.2.dim_datacenters = [toDatacenterRow 1 c5Row0] ∧
    c1S0.dim_datacenters = [] ∧
    script_exit_code c1Out.1 = 0 :=
  ⟨rfl, rfl, rfl, rfl⟩
